import Mathlib

/-!
# Verification of the URL-shortener core (src/src/main.rs)

Shallow embedding of the link-lifecycle logic of the service:

* `create_short_link` — creation handler (validation, code resolution,
  insert, conflict mapping), `main.rs` lines 179–232;
* `redirect_handler` — resolution handler (lookup, liveness check,
  fire-and-forget click accounting), `main.rs` lines 234–278;
* `AppError.into_response` — error-to-HTTP mapping, `main.rs` lines 85–135;
* `format_short_url` — short-URL construction, `main.rs` lines 291–293;
* the nanoid code generator used when no custom code is supplied.

The persistent store is an external collaborator; it is embedded as a list
of rows plus oracles for the outcomes of its operations.
-/

/- ============================
   String helpers

   Rust string primitives used by the handlers, re-implemented over
   `List Char` so that they evaluate in the kernel.  `String.utf8ByteSize`
   plays the role of Rust `str::len` (UTF-8 byte length).
   ============================ -/

/-- `charsLead pat s`: the char list `pat` is an initial segment of `s`
(the semantics of Rust `str::starts_with` on decoded characters). -/
def charsLead : List Char → List Char → Bool
  | [], _ => true
  | _ :: _, [] => false
  | p :: ps, c :: cs => p == c && charsLead ps cs

/-- Rust `str::starts_with(pat)`. -/
def strStartsWith (s pat : String) : Bool :=
  charsLead pat.toList s.toList

/-- `charsHaveSub pat s`: `pat` occurs contiguously somewhere in `s`
(the semantics of Rust `str::contains` with a string pattern). -/
def charsHaveSub : List Char → List Char → Bool
  | pat, [] => pat.isEmpty
  | pat, c :: cs => charsLead pat (c :: cs) || charsHaveSub pat cs

/-- Rust `str::contains(pat)`. -/
def strContains (s pat : String) : Bool :=
  charsHaveSub pat.toList s.toList

/-- Rust `str::trim`: drop leading and trailing whitespace characters.
(Rust trims Unicode `White_Space`; all inputs considered here are ASCII,
where this agrees with `Char.isWhitespace`.) -/
def strTrim (s : String) : String :=
  ⟨((s.toList.dropWhile Char.isWhitespace).reverse.dropWhile
      Char.isWhitespace).reverse⟩

/- ============================
   Data model
   ============================ -/

/-- A row of the `links` table.  Fields follow the schema used by the
queries in `main.rs`; `id` is the store-assigned identifier, timestamps
are embedded as integers. -/
structure Link where
  id : Nat
  short_code : String
  original_url : String
  is_active : Bool
  expires_at : Option Int
  created_at : Int
  deriving DecidableEq, Repr

/-- The columns selected by the lookup query of `redirect_handler`
(`SELECT id, original_url, expires_at`). -/
structure LinkRow where
  id : Nat
  original_url : String
  expires_at : Option Int
  deriving DecidableEq, Repr

/-- The payload of `POST /api/shorten` (struct `CreateLinkRequest`). -/
structure CreateLinkRequest where
  url : String
  custom_code : Option String
  deriving DecidableEq, Repr

/-- The success payload of creation (struct `CreateLinkResponse`). -/
structure CreateLinkResponse where
  short_code : String
  short_url : String
  deriving DecidableEq, Repr

/-- A database-level error as observed through `sqlx`: an optional
constraint name (`db_err.constraint()`) and a message
(`db_err.message()`). -/
structure DbError where
  constraint : Option String
  message : String
  deriving DecidableEq, Repr

/-- `sqlx::Error`: either a database error carrying a `DbError`, or any
other store failure (connection loss, timeout, ...), abstracted by a
description string. -/
inductive SqlxError where
  | Database (e : DbError)
  | Other (desc : String)
  deriving DecidableEq, Repr

/-- The error taxonomy (enum `AppError` in `main.rs`). -/
inductive AppError where
  | Validation (msg : String)
  | NotFound
  | Conflict
  | Gone
  | Database (e : SqlxError)
  | Internal
  deriving DecidableEq, Repr

/-- The value returned on the success path of resolution:
`Redirect::temporary(&link.original_url)`. -/
inductive Redirect where
  | temporary (target : String)
  deriving DecidableEq, Repr

/- ============================
   Code generator (nanoid)
   ============================ -/

/-- Modelled from the spec: the Code Generator is the external `nanoid`
crate (`nanoid::nanoid!(8)`), not part of this repository's sources.
This is nanoid's default 64-symbol URL-safe alphabet. -/
def nanoidAlphabet : List Char :=
  "useandom-26T198340PX75pxJACKVERYMINDBUSHWOLF_GQZbfghjklqvwyzrict".toList

/-- Modelled from the spec: `nanoid!(8)` draws 8 random symbols from
`nanoidAlphabet`.  The randomness source is an oracle `r` giving one
random number per position; nanoid reduces each to an alphabet index
(the alphabet size 64 is a power of two, so masking is exact `% 64`). -/
def nanoid8 (r : Fin 8 → Nat) : String :=
  ⟨(List.finRange 8).map fun i => nanoidAlphabet.getD (r i % 64) 'u'⟩

/- ============================
   Creation path
   ============================ -/

/-- Outcome of the store's `INSERT INTO links ... RETURNING id`. -/
inductive InsertOutcome where
  | ok (id : Nat)
  | err (e : SqlxError)
  deriving DecidableEq, Repr

/-- The guard of the `Err(sqlx::Error::Database(db_err)) if ...` arm in
`create_short_link` (`main.rs` lines 221–225): the failure is recognised
as a uniqueness violation on `short_code` when the constraint name
contains `short_code` or `unique`, or the message contains
`unique constraint`. -/
def isUniqueViolation : SqlxError → Bool
  | .Database db_err =>
      (match db_err.constraint with
        | some c => strContains c "short_code" || strContains c "unique"
        | none => false)
      || strContains db_err.message "unique constraint"
  | .Other _ => false

/-- `format_short_url` (`main.rs` lines 291–293):
`format!("http://localhost:8080/{code}")` — the base is a hardcoded
string literal. -/
def format_short_url (code : String) : String :=
  "http://localhost:8080/" ++ code

/-- The environment variables `main` reads at process startup
(`main.rs` lines 146–147): only `DATABASE_URL`. -/
def startupEnvReads : List String :=
  ["DATABASE_URL"]

/-- `create_short_link` (`main.rs` lines 179–232).  `generated` is the
code the generator would produce (used only when `custom_code` is
absent); `insert` is the store's response to the attempted insert.
Returns the handler's result together with the list of insert attempts
`(short_code, original_url)` actually issued to the store. -/
def create_short_link (payload : CreateLinkRequest) (generated : String)
    (insert : String → String → InsertOutcome) :
    Except AppError CreateLinkResponse × List (String × String) :=
  if payload.url.utf8ByteSize < 8 || !(strStartsWith payload.url "http") then
    (.error (.Validation "invalid URL"), [])
  else
    let code := payload.custom_code.getD generated
    match insert code (strTrim payload.url) with
    | .ok _ =>
        (.ok { short_code := code, short_url := format_short_url code },
          [(code, strTrim payload.url)])
    | .err e =>
        if isUniqueViolation e then
          (.error .Conflict, [(code, strTrim payload.url)])
        else
          (.error (.Database e), [(code, strTrim payload.url)])

/- ============================
   Concrete store
   ============================ -/

/-- Modelled from the spec: the Link Store's `insert_link` (spec §6) and
the Link defaults (spec §3) — the table schema itself is not under
`src/`.  An insert is rejected with the store's distinguishable
unique-constraint error when `short_code` collides with any existing row
(active or not); a fresh row is active, with no expiration. -/
def storeInsert (store : List Link) (code url : String) (now : Int) :
    InsertOutcome × List Link :=
  if store.any fun l => l.short_code == code then
    (.err (.Database
        { constraint := some "links_short_code_key",
          message := "duplicate key value violates unique constraint" }),
      store)
  else
    let link : Link :=
      { id := store.length, short_code := code, original_url := url,
        is_active := true, expires_at := none, created_at := now }
    (.ok link.id, store ++ [link])

/-- The lookup query of `redirect_handler` (`main.rs` lines 239–248):
`SELECT ... FROM links WHERE short_code = $1 AND is_active = true`,
`fetch_optional`. -/
def find_active_link (store : List Link) (code : String) : Option Link :=
  store.find? fun l => l.short_code == code && l.is_active

/-- Project a found row to the selected columns. -/
def lookupRow (store : List Link) (code : String) : Option LinkRow :=
  (find_active_link store code).map fun l =>
    { id := l.id, original_url := l.original_url, expires_at := l.expires_at }

/-- `create_short_link` run against the concrete store: the handler's
result together with the store contents after the call. -/
def runCreate (store : List Link) (payload : CreateLinkRequest)
    (generated : String) (now : Int) :
    Except AppError CreateLinkResponse × List Link :=
  let out := create_short_link payload generated
    fun c u => (storeInsert store c u now).1
  match out.2 with
  | [] => (out.1, store)
  | (c, u) :: _ => (out.1, (storeInsert store c u now).2)

/- ============================
   Resolution path
   ============================ -/

/-- The `if let Some(expires) = link.expires_at { if expires < now ... }`
check of `redirect_handler` (`main.rs` lines 255–259). -/
def isExpired (expires_at : Option Int) (now : Int) : Bool :=
  match expires_at with
  | some expires => decide (expires < now)
  | none => false

instance {α β : Type} [DecidableEq α] [DecidableEq β] :
    DecidableEq (Except α β) := fun a b =>
  match a, b with
  | .ok x, .ok y =>
      if h : x = y then .isTrue (by rw [h])
      else .isFalse fun hh => h (Except.ok.inj hh)
  | .error x, .error y =>
      if h : x = y then .isTrue (by rw [h])
      else .isFalse fun hh => h (Except.error.inj hh)
  | .ok _, .error _ => .isFalse fun h => nomatch h
  | .error _, .ok _ => .isFalse fun h => nomatch h

/-- Everything observable about one resolution: the handler's result,
the click-record insertions attempted (by link id), and the errors
logged by the click task. -/
structure ResolveOutput where
  result : Except AppError Redirect
  clickAttempts : List Nat
  clickLog : List SqlxError
  deriving DecidableEq, Repr

/-- `redirect_handler` (`main.rs` lines 234–278).  `lookup` is the
outcome of the store lookup (`.await?` turns a store failure into
`AppError::Database`); `recordClick` is the store's response to the
spawned `INSERT INTO clicks (link_id)`.  The spawned task's outcome is
recorded in `clickAttempts`/`clickLog` and never enters `result`. -/
def redirect_handler (lookup : Except SqlxError (Option LinkRow))
    (now : Int) (recordClick : Nat → Except SqlxError Unit) :
    ResolveOutput :=
  match lookup with
  | .error e => { result := .error (.Database e), clickAttempts := [], clickLog := [] }
  | .ok none => { result := .error .NotFound, clickAttempts := [], clickLog := [] }
  | .ok (some link) =>
      if isExpired link.expires_at now then
        { result := .error .Gone, clickAttempts := [], clickLog := [] }
      else
        { result := .ok (.temporary link.original_url),
          clickAttempts := [link.id],
          clickLog :=
            match recordClick link.id with
            | .error e => [e]
            | .ok _ => [] }

/-- `redirect_handler` run against the concrete store (successful
lookup query). -/
def resolve_on_store (store : List Link) (code : String) (now : Int)
    (recordClick : Nat → Except SqlxError Unit) : ResolveOutput :=
  redirect_handler (.ok (lookupRow store code)) now recordClick

/- ============================
   Error-to-response mapping
   ============================ -/

/-- The `error` object of the JSON error envelope
(struct `ApiErrorDetail`). -/
structure ApiErrorDetail where
  code : String
  message : String
  deriving DecidableEq, Repr

/-- The JSON error envelope (struct `ApiErrorBody`). -/
structure ApiErrorBody where
  success : Bool
  error : ApiErrorDetail
  deriving DecidableEq, Repr

/-- A client-visible error response: HTTP status plus body. -/
structure HttpResponse where
  status : Nat
  body : ApiErrorBody
  deriving DecidableEq, Repr

/-- `AppError::into_response` (`main.rs` lines 85–135): the
client-visible response, together with the store errors logged at the
point of conversion (the `error!` call on the `Database` arm). -/
def AppError.into_response : AppError → HttpResponse × List SqlxError
  | .Validation msg =>
      (⟨400, ⟨false, ⟨"VALIDATION_ERROR", msg⟩⟩⟩, [])
  | .NotFound =>
      (⟨404, ⟨false, ⟨"NOT_FOUND", "not found"⟩⟩⟩, [])
  | .Conflict =>
      (⟨409, ⟨false, ⟨"CONFLICT", "already exists"⟩⟩⟩, [])
  | .Gone =>
      (⟨410, ⟨false, ⟨"GONE", "link expired"⟩⟩⟩, [])
  | .Database e =>
      (⟨500, ⟨false, ⟨"INTERNAL_ERROR", "internal error"⟩⟩⟩, [e])
  | .Internal =>
      (⟨500, ⟨false, ⟨"INTERNAL_ERROR", "internal error"⟩⟩⟩, [])

/- ============================
   Spec-side predicates (for refinement comparison)
   ============================ -/

/-- The validation predicate as the spec words it (spec §4.2 step 1):
the TRIMMED url is shorter than 8 characters or does not begin with an
HTTP-scheme prefix.  Kept separate from `create_short_link` so the two
can be compared. -/
def spec_validation_fails (url : String) : Bool :=
  decide ((strTrim url).length < 8) || !(strStartsWith (strTrim url) "http")

/-- A URL-safe character in the sense of the spec (§4.1): uppercase,
lowercase, digit, `-` or `_`. -/
def urlSafeChar (c : Char) : Bool :=
  ('A' ≤ c && c ≤ 'Z') || ('a' ≤ c && c ≤ 'z') ||
    ('0' ≤ c && c ≤ '9') || c == '-' || c == '_'

/- ============================
   Theorems
   ============================ -/

/-- C1 (counterexample): the url `"http    "` — `"http"` followed by
four spaces, 8 bytes raw — fails the spec's TRIMMED validation predicate
(its trim, `"http"`, has length 4), yet `create_short_link` accepts it,
proceeds to insert the trimmed url, and succeeds.  So creation does not
fail with `Validation` iff the trimmed url is too short or un-prefixed:
the code validates the raw, untrimmed url. -/
theorem c1_trim_counterexample :
    spec_validation_fails "http    " = true
    ∧ (create_short_link ⟨"http    ", none⟩ "AAAAAAAA" fun _ _ => .ok 1).1
        = .ok ⟨"AAAAAAAA", "http://localhost:8080/AAAAAAAA"⟩
    ∧ (create_short_link ⟨"http    ", none⟩ "AAAAAAAA" fun _ _ => .ok 1).2
        = [("AAAAAAAA", "http")] := by
  decide

/-- C1 (amended): `create_short_link` fails with `Validation` iff the RAW
(untrimmed) url is shorter than 8 bytes or does not begin with `"http"`;
otherwise validation passes and exactly one insert of the resolved code
and the trimmed url is attempted. -/
theorem c1_validation_iff (payload : CreateLinkRequest) (generated : String)
    (insert : String → String → InsertOutcome) :
    ((create_short_link payload generated insert).1
        = .error (.Validation "invalid URL")
      ↔ (payload.url.utf8ByteSize < 8
          ∨ strStartsWith payload.url "http" = false))
    ∧ (¬ (payload.url.utf8ByteSize < 8
          ∨ strStartsWith payload.url "http" = false)
      → (create_short_link payload generated insert).2
          = [(payload.custom_code.getD generated, strTrim payload.url)]) := by
  by_cases h : payload.url.utf8ByteSize < 8
      ∨ strStartsWith payload.url "http" = false
  · have hb : (decide (payload.url.utf8ByteSize < 8)
        || !(strStartsWith payload.url "http")) = true := by
      rcases h with h | h <;> simp [h]
    simp [create_short_link, hb, h]
  · have h1 : ¬ payload.url.utf8ByteSize < 8 := fun hc => h (Or.inl hc)
    have h2' : strStartsWith payload.url "http" = true := by
      cases hs : strStartsWith payload.url "http"
      · exact absurd (Or.inr hs) h
      · rfl
    have hb : (decide (payload.url.utf8ByteSize < 8)
        || !(strStartsWith payload.url "http")) = false := by
      simp [h1, h2']
    refine ⟨⟨fun hres => ?_, fun hcon => absurd hcon h⟩, fun _ => ?_⟩
    · cases hi : insert (payload.custom_code.getD generated)
          (strTrim payload.url) with
      | ok id => simp [create_short_link, hb, hi] at hres
      | err e =>
          by_cases hu : isUniqueViolation e = true <;>
            simp [create_short_link, hb, hi, hu] at hres
    · cases hi : insert (payload.custom_code.getD generated)
          (strTrim payload.url) with
      | ok id => simp [create_short_link, hb, hi]
      | err e =>
          by_cases hu : isUniqueViolation e = true <;>
            simp [create_short_link, hb, hi, hu]

/-- C1 witness: a concrete invalid url is rejected with `Validation`,
and a concrete valid url leads to exactly one insert attempt. -/
theorem c1_validation_iff_witness :
    (create_short_link ⟨"ftp://abcdef", none⟩ "AAAAAAAA"
        fun _ _ => .ok 1).1 = .error (.Validation "invalid URL")
    ∧ (create_short_link ⟨"https://example.com", none⟩ "AAAAAAAA"
        fun _ _ => .ok 1).2 = [("AAAAAAAA", "https://example.com")] := by
  constructor
  · exact (c1_validation_iff ⟨"ftp://abcdef", none⟩ "AAAAAAAA"
      (fun _ _ => .ok 1)).1.2 (Or.inr (by decide))
  · exact (c1_validation_iff ⟨"https://example.com", none⟩ "AAAAAAAA"
      (fun _ _ => .ok 1)).2 (by decide)

/-- C2: when the lookup finds an (active) row, `redirect_handler`
returns `Gone` whenever `expires_at` is present and strictly earlier
than the current time; when `expires_at` is absent or not in the past,
the expiry check does not fail the resolution, which succeeds. -/
theorem c2_expiry_gone (link : LinkRow) (now : Int)
    (recordClick : Nat → Except SqlxError Unit) :
    ((∃ t, link.expires_at = some t ∧ t < now) →
      (redirect_handler (.ok (some link)) now recordClick).result
        = .error .Gone)
    ∧ ((∀ t, link.expires_at = some t → ¬ t < now) →
      (redirect_handler (.ok (some link)) now recordClick).result
        = .ok (.temporary link.original_url)) := by
  constructor
  · rintro ⟨t, ht, hlt⟩
    simp [redirect_handler, isExpired, ht, hlt]
  · intro hno
    cases he : link.expires_at with
    | none => simp [redirect_handler, isExpired, he]
    | some t => simp [redirect_handler, isExpired, he, hno t he]

/-- C2 witness: a row expired at time 5 resolved at time 10 yields
`Gone`; a row with no expiration resolved at time 10 succeeds. -/
theorem c2_expiry_gone_witness :
    (redirect_handler (.ok (some ⟨1, "http://a", some 5⟩)) 10
        fun _ => .ok ()).result = .error .Gone
    ∧ (redirect_handler (.ok (some ⟨1, "http://a", none⟩)) 10
        fun _ => .ok ()).result = .ok (.temporary "http://a") := by
  constructor
  · exact (c2_expiry_gone ⟨1, "http://a", some 5⟩ 10 fun _ => .ok ()).1
      ⟨5, rfl, by decide⟩
  · exact (c2_expiry_gone ⟨1, "http://a", none⟩ 10 fun _ => .ok ()).2
      (by intro t ht; cases ht)

/-- C3: when every stored link bearing the requested code is inactive —
in particular when no stored link bears it at all — resolution returns
`NotFound`; absent and inactive codes are thus indistinguishable in the
result. -/
theorem c3_inactive_absent_notfound (store : List Link) (code : String)
    (now : Int) (recordClick : Nat → Except SqlxError Unit)
    (h : ∀ l ∈ store, l.short_code = code → l.is_active = false) :
    (resolve_on_store store code now recordClick).result
      = .error .NotFound := by
  have hfind : find_active_link store code = none := by
    unfold find_active_link
    rw [List.find?_eq_none]
    intro l hl
    by_cases hc : l.short_code = code
    · simp [hc, h l hl hc]
    · simp [hc]
  simp [resolve_on_store, lookupRow, redirect_handler, hfind]

/-- C3 witness: resolving `"abc"` against the empty store and against a
store holding only a deactivated `"abc"` link both yield `NotFound`. -/
theorem c3_inactive_absent_notfound_witness :
    (resolve_on_store [] "abc" 0 fun _ => .ok ()).result
      = .error .NotFound
    ∧ (resolve_on_store
        [{ id := 0, short_code := "abc", original_url := "http://a",
           is_active := false, expires_at := none, created_at := 0 }]
        "abc" 0 fun _ => .ok ()).result = .error .NotFound := by
  constructor
  · exact c3_inactive_absent_notfound [] "abc" 0 (fun _ => .ok ())
      (by intro l hl; cases hl)
  · exact c3_inactive_absent_notfound _ "abc" 0 (fun _ => .ok ())
      (by decide)

/-- C9: the client-visible response for a `Database` error is the same
fixed structured body — status 500, machine-readable code
`INTERNAL_ERROR`, opaque message `"internal error"` — for ANY two
underlying store errors, so nothing of the underlying error's text can
appear in the response. -/
theorem c9_database_opaque (e1 e2 : SqlxError) :
    (AppError.into_response (.Database e1)).1
      = (AppError.into_response (.Database e2)).1
    ∧ (AppError.into_response (.Database e1)).1
      = ⟨500, ⟨false, ⟨"INTERNAL_ERROR", "internal error"⟩⟩⟩ :=
  ⟨rfl, rfl⟩

/-- C10: an input failing validation makes `create_short_link` return
`Validation` with NO insert attempt, and leaves the concrete store
unchanged. -/
theorem c10_validation_no_insert (store : List Link)
    (payload : CreateLinkRequest) (generated : String) (now : Int)
    (insert : String → String → InsertOutcome)
    (h : payload.url.utf8ByteSize < 8
        ∨ strStartsWith payload.url "http" = false) :
    create_short_link payload generated insert
      = (.error (.Validation "invalid URL"), [])
    ∧ runCreate store payload generated now
      = (.error (.Validation "invalid URL"), store) := by
  have hb : (decide (payload.url.utf8ByteSize < 8)
      || !(strStartsWith payload.url "http")) = true := by
    rcases h with h | h <;> simp [h]
  constructor
  · simp [create_short_link, hb]
  · simp [runCreate, create_short_link, hb]

/-- C10 witness: a concrete non-http url is rejected without touching
the store. -/
theorem c10_validation_no_insert_witness :
    create_short_link ⟨"ftp://abcdef", none⟩ "AAAAAAAA" (fun _ _ => .ok 1)
      = (.error (.Validation "invalid URL"), [])
    ∧ runCreate [] ⟨"ftp://abcdef", none⟩ "AAAAAAAA" 0
      = (.error (.Validation "invalid URL"), []) :=
  c10_validation_no_insert [] ⟨"ftp://abcdef", none⟩ "AAAAAAAA" 0
    (fun _ _ => .ok 1) (Or.inr (by decide))

/-- Helper: on any successful create, the response is exactly the
resolved code with its formatted short url, and that code together with
the trimmed url was the single insert attempt issued to the store. -/
theorem create_success_shape (payload : CreateLinkRequest)
    (generated : String) (insert : String → String → InsertOutcome)
    (resp : CreateLinkResponse)
    (h : (create_short_link payload generated insert).1 = .ok resp) :
    resp = { short_code := payload.custom_code.getD generated,
             short_url :=
               format_short_url (payload.custom_code.getD generated) }
    ∧ (create_short_link payload generated insert).2
        = [(payload.custom_code.getD generated, strTrim payload.url)] := by
  by_cases hb : (decide (payload.url.utf8ByteSize < 8)
      || !(strStartsWith payload.url "http")) = true
  · simp [create_short_link, hb] at h
  · have hb' : (decide (payload.url.utf8ByteSize < 8)
        || !(strStartsWith payload.url "http")) = false := by
      revert hb
      cases decide (payload.url.utf8ByteSize < 8)
        || !(strStartsWith payload.url "http") <;> simp
    cases hi : insert (payload.custom_code.getD generated)
        (strTrim payload.url) with
    | ok id =>
        simp [create_short_link, hb', hi] at h ⊢
        exact h.symm
    | err e =>
        by_cases hu : isUniqueViolation e = true <;>
          simp [create_short_link, hb', hi, hu] at h

/-- C4: when validation passes and the single insert attempt fails,
create returns `Conflict` iff the store failure is recognised as the
uniqueness violation on `short_code` (the handler's constraint-name /
message check); every other failure is returned as `Database`, and in
all cases exactly one insert is ever attempted — the insert is never
retried inside the operation. -/
theorem c4_conflict_mapping (payload : CreateLinkRequest)
    (generated : String) (insert : String → String → InsertOutcome)
    (e : SqlxError)
    (hv : ¬ (payload.url.utf8ByteSize < 8
        ∨ strStartsWith payload.url "http" = false))
    (hi : insert (payload.custom_code.getD generated) (strTrim payload.url)
        = .err e) :
    ((create_short_link payload generated insert).1 = .error .Conflict
      ↔ isUniqueViolation e = true)
    ∧ (isUniqueViolation e = false
      → (create_short_link payload generated insert).1
          = .error (.Database e))
    ∧ (create_short_link payload generated insert).2
        = [(payload.custom_code.getD generated, strTrim payload.url)] := by
  have h1 : ¬ payload.url.utf8ByteSize < 8 := fun hc => hv (Or.inl hc)
  have h2' : strStartsWith payload.url "http" = true := by
    cases hs : strStartsWith payload.url "http"
    · exact absurd (Or.inr hs) hv
    · rfl
  have hb : (decide (payload.url.utf8ByteSize < 8)
      || !(strStartsWith payload.url "http")) = false := by
    simp [h1, h2']
  by_cases hu : isUniqueViolation e = true
  · simp [create_short_link, hb, hi, hu]
  · have hu' : isUniqueViolation e = false := by
      revert hu; cases isUniqueViolation e <;> simp
    simp [create_short_link, hb, hi, hu']

/-- C4 witness: a duplicate-key failure on a concrete second create with
the same custom code yields `Conflict`; a concrete connection failure is
surfaced as `Database`. -/
theorem c4_conflict_mapping_witness :
    (create_short_link ⟨"http://y.com/b", some "abc123"⟩ "AAAAAAAA"
        fun _ _ => .err (.Database ⟨some "links_short_code_key",
          "duplicate key value violates unique constraint"⟩)).1
      = .error .Conflict
    ∧ (create_short_link ⟨"http://y.com/b", some "abc123"⟩ "AAAAAAAA"
        fun _ _ => .err (.Other "connection reset")).1
      = .error (.Database (.Other "connection reset")) := by
  constructor
  · exact (c4_conflict_mapping ⟨"http://y.com/b", some "abc123"⟩ "AAAAAAAA"
      (fun _ _ => .err (.Database ⟨some "links_short_code_key",
        "duplicate key value violates unique constraint"⟩))
      (.Database ⟨some "links_short_code_key",
        "duplicate key value violates unique constraint"⟩)
      (by decide) rfl).1.2 (by decide)
  · exact (c4_conflict_mapping ⟨"http://y.com/b", some "abc123"⟩ "AAAAAAAA"
      (fun _ _ => .err (.Other "connection reset"))
      (.Other "connection reset") (by decide) rfl).2.1 (by decide)

/-- C6: on every successful resolution exactly one click insertion,
referencing the resolved link's id, is attempted; the redirect result is
the same under every click outcome (the failure is never surfaced), and
a failing click insertion leaves its error in the log. -/
theorem c6_click_accounting (link : LinkRow) (now : Int)
    (recordClick : Nat → Except SqlxError Unit) (target : Redirect)
    (h : (redirect_handler (.ok (some link)) now recordClick).result
        = .ok target) :
    (redirect_handler (.ok (some link)) now recordClick).clickAttempts
        = [link.id]
    ∧ (∀ recordClick2 : Nat → Except SqlxError Unit,
        (redirect_handler (.ok (some link)) now recordClick2).result
          = .ok target)
    ∧ (∀ e, recordClick link.id = .error e →
        (redirect_handler (.ok (some link)) now recordClick).clickLog
          = [e]) := by
  by_cases hx : isExpired link.expires_at now = true
  · simp [redirect_handler, hx] at h
  · have hx' : isExpired link.expires_at now = false := by
      revert hx; cases isExpired link.expires_at now <;> simp
    have ht : Redirect.temporary link.original_url = target := by
      simpa [redirect_handler, hx'] using h
    refine ⟨by simp [redirect_handler, hx'],
      fun recordClick2 => by simp [redirect_handler, hx', ht],
      fun e he => by simp [redirect_handler, hx', he]⟩

/-- C6 witness: a concrete successful resolution with a failing click
insert still redirects, attempts exactly one click for the link id, and
logs the click failure. -/
theorem c6_click_accounting_witness :
    (redirect_handler (.ok (some ⟨1, "http://a", none⟩)) 0
        fun _ => .error (.Other "click db down")).clickAttempts = [1]
    ∧ (redirect_handler (.ok (some ⟨1, "http://a", none⟩)) 0
        fun _ => .error (.Other "click db down")).result
      = .ok (.temporary "http://a")
    ∧ (redirect_handler (.ok (some ⟨1, "http://a", none⟩)) 0
        fun _ => .error (.Other "click db down")).clickLog
      = [.Other "click db down"] := by
  have h := c6_click_accounting ⟨1, "http://a", none⟩ 0
    (fun _ => .error (.Other "click db down")) (.temporary "http://a")
    (by decide)
  exact ⟨h.1, h.2.1 _, h.2.2 _ rfl⟩

/-- Helper: the generator model always yields 8 characters, each
URL-safe. -/
theorem nanoid8_chars (r : Fin 8 → Nat) :
    (nanoid8 r).length = 8
    ∧ ∀ c ∈ (nanoid8 r).toList, urlSafeChar c = true := by
  constructor
  · simp [nanoid8, String.length]
  · intro c hc
    simp only [nanoid8, String.toList, List.mem_map] at hc
    obtain ⟨i, _, hi⟩ := hc
    have hall : ∀ k < 64, urlSafeChar (nanoidAlphabet.getD k 'u') = true := by
      decide
    have := hall (r i % 64) (Nat.mod_lt _ (by norm_num))
    rw [hi] at this
    exact this

/-- C7: with no custom code supplied, every successful create returns
the generated code: exactly 8 characters, each an uppercase letter, a
lowercase letter, a digit, `-` or `_`. -/
theorem c7_generated_code (payload : CreateLinkRequest) (r : Fin 8 → Nat)
    (insert : String → String → InsertOutcome) (resp : CreateLinkResponse)
    (hcc : payload.custom_code = none)
    (h : (create_short_link payload (nanoid8 r) insert).1 = .ok resp) :
    resp.short_code.length = 8
    ∧ ∀ c ∈ resp.short_code.toList, urlSafeChar c = true := by
  have hs := (create_success_shape payload (nanoid8 r) insert resp h).1
  rw [hs]
  simp only [hcc, Option.getD_none]
  exact nanoid8_chars r

/-- C7 witness: a concrete valid create without custom code returns the
8-character generated code, all characters URL-safe. -/
theorem c7_generated_code_witness :
    ((nanoid8 fun _ => 0).length = 8
      ∧ ∀ c ∈ (nanoid8 fun _ => 0).toList, urlSafeChar c = true)
    ∧ (create_short_link ⟨"https://example.com", none⟩ (nanoid8 fun _ => 0)
        fun _ _ => .ok 1).1
      = .ok ⟨nanoid8 fun _ => 0,
             format_short_url (nanoid8 fun _ => 0)⟩ := by
  refine ⟨?_, by decide⟩
  exact c7_generated_code ⟨"https://example.com", none⟩ (fun _ => 0)
    (fun _ _ => .ok 1) ⟨nanoid8 fun _ => 0, format_short_url (nanoid8 fun _ => 0)⟩
    rfl (by decide)

/-- C8 (counterexample): the base of the short url is the hardcoded
string literal `"http://localhost:8080/"`; startup reads only
`DATABASE_URL` — no public-base-URL configuration exists — so the url
is not built from a configured base (e.g. a configured
`"https://sho.rt/"` is never used). -/
theorem c8_counterexample :
    format_short_url "AAAAAAAA" = "http://localhost:8080/" ++ "AAAAAAAA"
    ∧ startupEnvReads = ["DATABASE_URL"]
    ∧ ("PUBLIC_BASE_URL" ∈ startupEnvReads → False)
    ∧ format_short_url "AAAAAAAA" ≠ "https://sho.rt/" ++ "AAAAAAAA" := by
  refine ⟨rfl, rfl, by decide, by decide⟩

/-- C8 (amended): for every successful create, the returned `short_url`
is the hardcoded base `"http://localhost:8080/"` concatenated with the
returned `short_code`, and the returned `short_code` is exactly the
code of the single persisted insert attempt. -/
theorem c8_short_url_shape (payload : CreateLinkRequest)
    (generated : String) (insert : String → String → InsertOutcome)
    (resp : CreateLinkResponse)
    (h : (create_short_link payload generated insert).1 = .ok resp) :
    resp.short_url = "http://localhost:8080/" ++ resp.short_code
    ∧ (create_short_link payload generated insert).2
        = [(resp.short_code, strTrim payload.url)] := by
  obtain ⟨h1, h2⟩ := create_success_shape payload generated insert resp h
  subst h1
  exact ⟨rfl, h2⟩

/-- C8 witness: a concrete successful create with custom code
`"abc123"`. -/
theorem c8_short_url_shape_witness :
    ("http://localhost:8080/abc123" : String)
        = "http://localhost:8080/" ++ "abc123"
    ∧ (create_short_link ⟨"https://example.com", some "abc123"⟩ "AAAAAAAA"
        fun _ _ => .ok 1).2 = [("abc123", "https://example.com")] := by
  have h := c8_short_url_shape ⟨"https://example.com", some "abc123"⟩
    "AAAAAAAA" (fun _ _ => .ok 1)
    ⟨"abc123", "http://localhost:8080/abc123"⟩ (by decide)
  exact ⟨h.1, h.2.trans (by decide)⟩

/-- C5 (counterexample): the url `"http://a "` (trailing space) is
accepted by create, but the stored and resolved redirect target is the
TRIMMED url `"http://a"`, not the exact string that was passed. -/
theorem c5_trim_counterexample :
    (runCreate [] ⟨"http://a ", none⟩ "AAAAAAAA" 0).1
        = .ok ⟨"AAAAAAAA", "http://localhost:8080/AAAAAAAA"⟩
    ∧ (resolve_on_store (runCreate [] ⟨"http://a ", none⟩ "AAAAAAAA" 0).2
        "AAAAAAAA" 0 fun _ => .ok ()).result
        = .ok (.temporary "http://a")
    ∧ "http://a" ≠ "http://a " := by
  refine ⟨by decide, by decide, by decide⟩

/-- Helper: appending a fresh row to a store holding no row with its
code makes the active lookup of that code find exactly the new row. -/
theorem find_active_of_fresh (store : List Link) (code : String) (l : Link)
    (h : (store.any fun x => x.short_code == code) = false) :
    find_active_link (store ++ [l]) code
      = if l.short_code == code && l.is_active then some l else none := by
  induction store with
  | nil =>
      cases hc : l.short_code == code && l.is_active <;>
        simp [find_active_link, List.find?, hc]
  | cons a as ih =>
      have hh := h
      rw [List.any_cons, Bool.or_eq_false_iff] at hh
      obtain ⟨ha, has⟩ := hh
      have := ih has
      simp only [find_active_link, List.cons_append, List.find?] at this ⊢
      rw [ha]
      simpa using this

/-- C5 (amended): resolving the code returned by a successful create —
the link being active and unexpired in the store the create produced —
returns as redirect target exactly the TRIMMED original url
(`url.trim()`), which coincides with the url passed to create whenever
that url carries no leading or trailing whitespace. -/
theorem c5_roundtrip (store : List Link) (payload : CreateLinkRequest)
    (generated : String) (now now2 : Int)
    (recordClick : Nat → Except SqlxError Unit)
    (resp : CreateLinkResponse) (store2 : List Link)
    (h : runCreate store payload generated now = (.ok resp, store2)) :
    (resolve_on_store store2 resp.short_code now2 recordClick).result
      = .ok (.temporary (strTrim payload.url)) := by
  by_cases hb : (decide (payload.url.utf8ByteSize < 8)
      || !(strStartsWith payload.url "http")) = true
  · simp [runCreate, create_short_link, hb] at h
  · have hb' : (decide (payload.url.utf8ByteSize < 8)
        || !(strStartsWith payload.url "http")) = false := by
      revert hb
      cases decide (payload.url.utf8ByteSize < 8)
        || !(strStartsWith payload.url "http") <;> simp
    by_cases hany : (store.any fun x =>
        x.short_code == payload.custom_code.getD generated) = true
    · have hdup : isUniqueViolation (.Database
          ⟨some "links_short_code_key",
            "duplicate key value violates unique constraint"⟩) = true := by
        decide
      simp [runCreate, create_short_link, storeInsert, hb', hany, hdup] at h
    · have hany' : (store.any fun x =>
          x.short_code == payload.custom_code.getD generated) = false := by
        revert hany
        cases store.any fun x =>
          x.short_code == payload.custom_code.getD generated <;> simp
      simp only [runCreate, create_short_link, hb', Bool.false_eq_true,
        if_false, storeInsert, hany', Prod.mk.injEq] at h
      obtain ⟨hresp, hstore⟩ := h
      simp only [Except.ok.injEq] at hresp
      subst hresp
      subst hstore
      have hfind := find_active_of_fresh store
        (payload.custom_code.getD generated)
        { id := store.length,
          short_code := payload.custom_code.getD generated,
          original_url := strTrim payload.url,
          is_active := true, expires_at := none, created_at := now } hany'
      simp only [beq_self_eq_true, Bool.and_self, if_pos] at hfind
      simp [resolve_on_store, lookupRow, redirect_handler, isExpired, hfind]

/-- C5 witness: a concrete whitespace-free create round-trips to the
exact url that was passed. -/
theorem c5_roundtrip_witness :
    (resolve_on_store
        [{ id := 0, short_code := "AAAAAAAA",
           original_url := "https://example.com", is_active := true,
           expires_at := none, created_at := 0 }]
        "AAAAAAAA" 5 fun _ => .ok ()).result
      = .ok (.temporary "https://example.com") := by
  have h := c5_roundtrip [] ⟨"https://example.com", none⟩ "AAAAAAAA" 0 5
    (fun _ => .ok ())
    ⟨"AAAAAAAA", "http://localhost:8080/AAAAAAAA"⟩
    [{ id := 0, short_code := "AAAAAAAA",
       original_url := "https://example.com", is_active := true,
       expires_at := none, created_at := 0 }] (by decide)
  have ht : strTrim "https://example.com" = "https://example.com" := by
    decide
  rw [ht] at h
  exact h
